import Mathlib

/-!
# WowLab: `src/App.js`

A shallow embedding of the single module of the repository: the configuration
literal `msalConfig`, the client instance `msalInstance`, the function
components `SignInButton` and `WelcomeUser`, and the click handler
`handleLogin`.

The third component, `App` (lines 37-46), has no embedding.  Its line 40 reads
`style={ padding: "20px", fontFamily: "Verdana" }`: what stands in the
attribute's braces, `padding: "20px", fontFamily: "Verdana"`, is not an
expression (the braces of the object literal are missing), so the function as
written has no parse and returns no tree.  Statements about a rendered tree are
therefore statements about `WelcomeUser`, rendered below an `MsalProvider` as
`App` means to do.

The module talks to an external authentication library through three entry
points: the hooks `useMsal` and `useAccount`, and the method `loginRedirect`
of the client instance.  What the library answers is not part of the module;
it is a parameter of the embedding (`MsalLibrary`).  Every call the module
makes into the library is recorded in a log (`World.calls`), so that
statements about which calls happen, and how often, are statements about that
log.
-/

namespace WowLab

/-! ## Data model -/

/-- A JavaScript value, as far as the object literal `msalConfig` needs it: a
string, or an object given by its properties in the order they are written. -/
inductive JSValue where
  | str (s : String)
  | obj (fields : List (String × JSValue))

/-- Property names of an object, in order; a string has none. -/
def JSValue.keys : JSValue → List String
  | .str _ => []
  | .obj fields => fields.map Prod.fst

/-- Property read `v.key`: `none` stands for `undefined`. -/
def JSValue.get? : JSValue → String → Option JSValue
  | .str _, _ => none
  | .obj fields, key => fields.lookup key

/-- The string held by a value, if it is a string. -/
def JSValue.asString? : JSValue → Option String
  | .str s => some s
  | .obj _ => none

/-- Lines 5-11: `const msalConfig = { auth: { clientId, authority, redirectUri } }`. -/
def msalConfig : JSValue :=
  .obj [("auth", .obj [
    ("clientId", .str "YOUR_AZURE_AD_CLIENT_ID"),
    ("authority", .str "https://login.microsoftonline.com/common"),
    ("redirectUri", .str "https://wowfactory.azurewebsites.net/loginnow")])]

/-- The authority URL pattern of the specification,
`https://login.microsoftonline.com/{tenant}`, instantiated at a tenant. -/
def authorityPattern (tenant : String) : String :=
  "https://login.microsoftonline.com/" ++ tenant

/-- Line 13: `const msalInstance = new PublicClientApplication(msalConfig)`.
The constructor belongs to the external library and is a parameter; `κ` is
the type of client instances. -/
def msalInstance {κ : Type} (PublicClientApplication : JSValue → κ) : κ :=
  PublicClientApplication msalConfig

/-- Modelled from the spec: the Account record of the external library's
session cache, which the module only reads: display name and username. -/
structure Account where
  name : String
  username : String
deriving DecidableEq, Repr

/-- The argument of `loginRedirect`: the object literal `{ scopes: [...] }`. -/
structure RedirectRequest where
  scopes : List String
deriving DecidableEq, Repr

/-- What an asynchronous `loginRedirect` hands back to its caller: a promise,
given here by how it settles later, fulfilled or rejected with a failure. -/
inductive Promise (π : Type) where
  | fulfilled
  | rejected (failure : π)
deriving DecidableEq, Repr

/-- A call from the module into the external library.  `loginRedirect` is a
method: the log keeps the client instance it is called on. -/
inductive LibCall (κ : Type) where
  | useMsal
  | useAccount (arg : Option Account)
  | loginRedirect (target : κ) (request : RedirectRequest)

/-- Whether a logged call is a call of `loginRedirect`. -/
def LibCall.isLoginRedirect {κ : Type} : LibCall κ → Bool
  | .loginRedirect _ _ => true
  | _ => false

/-- The behaviour of the external library, for client instances `κ`, library
state `σ`, thrown values `ε` and values `ρ` returned by `loginRedirect`.
`accounts` is the snapshot of the session cache that `useMsal()` hands out,
`useAccount` is the account lookup hook, and `loginRedirect` either throws or
returns, and may change the library state either way. -/
structure MsalLibrary (κ σ ε ρ : Type) where
  accounts : σ → List Account
  useAccount : Option Account → σ → Option Account
  loginRedirect : κ → RedirectRequest → σ → Except ε ρ × σ

/-- Modelled from the spec: account records are sourced entirely from the
library's session cache, so in state `s` an account that the lookup returns is
one of the cached accounts. -/
def MsalLibrary.lookupFromCache {κ σ ε ρ : Type} (msal : MsalLibrary κ σ ε ρ) (s : σ) : Prop :=
  ∀ (arg : Option Account) (a : Account), msal.useAccount arg s = some a → a ∈ msal.accounts s

/-- Everything the module can affect: the state owned by the library and the
log of calls made into the library, oldest first. -/
structure World (κ σ : Type) where
  lib : σ
  calls : List (LibCall κ)

/-- Append a call to the log. -/
def World.record {κ σ : Type} (w : World κ σ) (c : LibCall κ) : World κ σ :=
  { w with calls := w.calls ++ [c] }

/-- The value `useMsal()` returns, as far as the module destructures it:
`instance` (here `inst`) and `accounts`. -/
structure IMsalContext (κ : Type) where
  inst : κ
  accounts : List Account

/-- The click handlers defined in the module.  `handleLogin` is a closure over
the `instance` that `SignInButton` read from `useMsal()`. -/
inductive Handler (κ : Type) where
  | handleLogin (inst : κ)

/-- A rendered tree: text, or an element with a tag, inline style, an optional
`onClick` handler and children. -/
inductive Node (κ : Type) where
  | text (s : String)
  | element (tag : String) (style : List (String × String))
      (onClick : Option (Handler κ)) (children : List (Node κ))

mutual
/-- Concatenated text of a node and its descendants (DOM `textContent`). -/
def Node.textContent {κ : Type} : Node κ → String
  | .text s => s
  | .element _ _ _ cs => Node.textContentList cs
/-- Concatenated text of a list of nodes. -/
def Node.textContentList {κ : Type} : List (Node κ) → String
  | [] => ""
  | c :: cs => c.textContent ++ Node.textContentList cs
end

mutual
/-- The elements of a tree in document order, the root included. -/
def Node.elements {κ : Type} : Node κ → List (Node κ)
  | .text _ => []
  | .element t st h cs => .element t st h cs :: Node.elementsList cs
/-- The elements of a list of trees in document order. -/
def Node.elementsList {κ : Type} : List (Node κ) → List (Node κ)
  | [] => []
  | c :: cs => c.elements ++ Node.elementsList cs
end

/-- Tag of an element; a text node has none. -/
def Node.tag? {κ : Type} : Node κ → Option String
  | .text _ => none
  | .element t _ _ _ => some t

/-- The `onClick` handler of a node, if any. -/
def Node.onClick? {κ : Type} : Node κ → Option (Handler κ)
  | .text _ => none
  | .element _ _ h _ => h

/-! ## The module -/

section Module

variable {κ σ ε ρ : Type}

/-- The hook `useMsal()`: returns the context of the enclosing `MsalProvider`. -/
def useMsal (ctx : IMsalContext κ) (w : World κ σ) : IMsalContext κ × World κ σ :=
  (ctx, w.record .useMsal)

/-- The hook `useAccount(arg)`: the library's account lookup. -/
def useAccount (msal : MsalLibrary κ σ ε ρ) (arg : Option Account) (w : World κ σ) :
    Option Account × World κ σ :=
  (msal.useAccount arg w.lib, w.record (.useAccount arg))

/-- The method call `inst.loginRedirect(request)`: the library runs, and the
call is logged whether it throws or returns. -/
def loginRedirect (msal : MsalLibrary κ σ ε ρ) (inst : κ) (request : RedirectRequest)
    (w : World κ σ) : Except ε ρ × World κ σ :=
  let r := msal.loginRedirect inst request w.lib
  (r.1, { lib := r.2, calls := w.calls ++ [.loginRedirect inst request] })

/-- Lines 17-19:
`function handleLogin() { instance.loginRedirect({ scopes: ["User.Read"] }); }`.
An expression statement with no `try`: a thrown value leaves
the function as it is, a returned value is dropped and the function returns
`undefined` (here `()`). -/
def handleLogin (msal : MsalLibrary κ σ ε ρ) (inst : κ) (w : World κ σ) :
    Except ε Unit × World κ σ :=
  match loginRedirect msal inst { scopes := ["User.Read"] } w with
  | (.error e, w1) => (.error e, w1)
  | (.ok _, w1) => (.ok (), w1)

/-- Run a handler. -/
def Handler.run (msal : MsalLibrary κ σ ε ρ) : Handler κ → World κ σ → Except ε Unit × World κ σ
  | .handleLogin inst, w => WowLab.handleLogin msal inst w

/-- Activate (click) an element: its `onClick` handler runs, if it has one. -/
def Node.click (msal : MsalLibrary κ σ ε ρ) (n : Node κ) (w : World κ σ) :
    Except ε Unit × World κ σ :=
  match n.onClick? with
  | some h => h.run msal w
  | none => (.ok (), w)

/-- Lines 15-21, `function SignInButton()`:
`<button onClick={handleLogin}>Sign In</button>`. -/
def SignInButton (ctx : IMsalContext κ) (w : World κ σ) : Node κ × World κ σ :=
  let (c, w1) := useMsal ctx w
  (.element "button" [] (some (.handleLogin c.inst)) [.text "Sign In"], w1)

/-- Lines 23-35, `function WelcomeUser()`.  `accounts[0] || null` is the first
account when the list has one (an account object is truthy) and `null`
otherwise: `List.head?`. -/
def WelcomeUser (msal : MsalLibrary κ σ ε ρ) (ctx : IMsalContext κ) (w : World κ σ) :
    Node κ × World κ σ :=
  let (c, w1) := useMsal ctx w
  let (account, w2) := useAccount msal c.accounts.head? w1
  match account with
  | some a =>
    (.element "div" [] none [
        .element "h2" [] none [.text "Welcome, ", .text a.name],
        .element "p" [] none [.text "Email: ", .text a.username]], w2)
  | none => SignInButton ctx w2

/-- The component `<MsalProvider instance={...}>`: renders its children, whose `useMsal()`
yields the given instance and the library's current account snapshot. -/
def MsalProvider (msal : MsalLibrary κ σ ε ρ) (inst : κ)
    (children : IMsalContext κ → World κ σ → Node κ × World κ σ) (w : World κ σ) :
    Node κ × World κ σ :=
  children { inst := inst, accounts := msal.accounts w.lib } w

end Module

/-! ## Observations on a rendered tree -/

section Observations

variable {κ : Type}

/-- Whether `s` begins with `pre`, character by character. -/
def startsWith (pre s : String) : Bool :=
  pre.data.isPrefixOf s.data

/-- An element with the given tag whose text is exactly `txt`. -/
def Node.isElementWithText (tag txt : String) (n : Node κ) : Bool :=
  n.tag? == some tag && n.textContent == txt

/-- The sign-in control: a `button` labelled "Sign In". -/
def Node.isSignInButton (n : Node κ) : Bool :=
  n.isElementWithText "button" "Sign In"

/-- An interactive control: an element that is a form control or link by its
tag, or that carries a click handler. -/
def Node.isInteractive (n : Node κ) : Bool :=
  (match n.tag? with
   | some t => ["button", "a", "input", "select", "textarea"].contains t
   | none => false) || n.onClick?.isSome

/-- The interactive controls of a tree, in document order. -/
def Node.controls (n : Node κ) : List (Node κ) :=
  n.elements.filter Node.isInteractive

/-- A greeting heading: an `h2` whose text begins "Welcome, ". -/
def Node.isWelcomeHeading (n : Node κ) : Bool :=
  n.tag? == some "h2" && startsWith "Welcome, " n.textContent

/-- A greeting paragraph: a `p` whose text begins "Email: ". -/
def Node.isEmailParagraph (n : Node κ) : Bool :=
  n.tag? == some "p" && startsWith "Email: " n.textContent

/-- The tree contains a sign-in button. -/
def Node.hasSignIn (n : Node κ) : Bool :=
  n.elements.any Node.isSignInButton

/-- The tree contains the welcome message: a greeting heading and a greeting
paragraph. -/
def Node.hasWelcome (n : Node κ) : Bool :=
  n.elements.any Node.isWelcomeHeading && n.elements.any Node.isEmailParagraph

/-- The tree contains any greeting text: a greeting heading or a greeting
paragraph. -/
def Node.hasGreetingText (n : Node κ) : Bool :=
  n.elements.any Node.isWelcomeHeading || n.elements.any Node.isEmailParagraph

/-- The tree contains an element with the given tag and exactly the given text. -/
def Node.hasElementWithText (tag txt : String) (n : Node κ) : Bool :=
  n.elements.any (Node.isElementWithText tag txt)

end Observations

/-! ## Sample data -/

/-- The account of the specification's example. -/
def jane : Account := { name := "Jane Doe", username := "jane@example.com" }

/-- A second account. -/
def bob : Account := { name := "Bob", username := "bob@example.com" }

/-- A library whose lookup returns the account it is given and whose
`loginRedirect` returns; the state is the cached account list. -/
def echoLibrary : MsalLibrary Unit (List Account) String Unit where
  accounts := fun s => s
  useAccount := fun arg _ => arg
  loginRedirect := fun _ _ s => (.ok (), s)

/-- A library whose lookup finds nothing, whatever it is given. -/
def blindLibrary : MsalLibrary Unit (List Account) String Unit where
  accounts := fun s => s
  useAccount := fun _ _ => none
  loginRedirect := fun _ _ s => (.ok (), s)

/-- A third account. -/
def carol : Account := { name := "Carol", username := "carol@example.com" }

/-- A library that looks accounts up in its session cache, the state: an
account it is given is returned when it is cached, and `null` is answered with
the active account, the first one cached. -/
def cacheLibrary : MsalLibrary Unit (List Account) String Unit where
  accounts := fun s => s
  useAccount := fun arg s => match arg with
    | some a => if a ∈ s then some a else none
    | none => s.head?
  loginRedirect := fun _ _ s => (.ok (), s)

/-- A library whose lookup returns the account cached last, whatever it is
given; the state is the cached account list. -/
def lastLibrary : MsalLibrary Unit (List Account) String Unit where
  accounts := fun s => s
  useAccount := fun _ s => s.getLast?
  loginRedirect := fun _ _ s => (.ok (), s)

/-- A library whose `loginRedirect` is asynchronous and fails: it returns a
promise that rejects, and counts the attempts in its state. -/
def rejectingLibrary : MsalLibrary Unit Nat String (Promise String) where
  accounts := fun _ => []
  useAccount := fun arg _ => arg
  loginRedirect := fun _ _ s => (.ok (.rejected "login_failed"), s + 1)

/-- A library whose `loginRedirect` always throws, and counts the attempts in
its state. -/
def failingLibrary : MsalLibrary Unit Nat String Unit where
  accounts := fun _ => []
  useAccount := fun arg _ => arg
  loginRedirect := fun _ _ s => (.error "interaction_in_progress", s + 1)

/-! ## Lemmas about the embedding -/

section Lemmas

variable {κ σ ε ρ : Type}

/-- A string begins with any string it was built from by appending. -/
theorem startsWith_append (pre s : String) : startsWith pre (pre ++ s) = true := by
  simp [startsWith, String.data_append]

/-- The tree `WelcomeUser` returns is fixed by the result of the lookup. -/
theorem WelcomeUser_fst (msal : MsalLibrary κ σ ε ρ) (ctx : IMsalContext κ) (w : World κ σ) :
    (WelcomeUser msal ctx w).1 =
      match msal.useAccount ctx.accounts.head? w.lib with
      | some a =>
        .element "div" [] none [
          .element "h2" [] none [.text "Welcome, ", .text a.name],
          .element "p" [] none [.text "Email: ", .text a.username]]
      | none => .element "button" [] (some (.handleLogin ctx.inst)) [.text "Sign In"] := by
  simp only [WelcomeUser, useMsal, useAccount, World.record, SignInButton]
  cases msal.useAccount ctx.accounts.head? w.lib <;> rfl

/-- The world after rendering `WelcomeUser`: the library state is untouched and
the log has gained the hook calls. -/
theorem WelcomeUser_snd (msal : MsalLibrary κ σ ε ρ) (ctx : IMsalContext κ) (w : World κ σ) :
    (WelcomeUser msal ctx w).2 =
      { lib := w.lib
        calls := w.calls ++
          match msal.useAccount ctx.accounts.head? w.lib with
          | some _ => [.useMsal, .useAccount ctx.accounts.head?]
          | none => [.useMsal, .useAccount ctx.accounts.head?, .useMsal] } := by
  simp only [WelcomeUser, useMsal, useAccount, World.record, SignInButton]
  cases msal.useAccount ctx.accounts.head? w.lib <;> simp

end Lemmas

/-! ## Claims -/

section Claims

variable {κ σ ε ρ : Type}

/-- C1, as stated, fails: the cached account list is `[jane]`, whose first
account has name "Jane Doe" and username "jane@example.com", but the library's
lookup returns `null`, and `WelcomeUser` renders the sign-in button and neither
the heading nor the paragraph. -/
theorem C1_lookup_null_counterexample :
    (([jane] : List Account).head? = some jane ∧ jane.name = "Jane Doe" ∧
      jane.username = "jane@example.com") ∧
    ¬ (((WelcomeUser blindLibrary ⟨(), [jane]⟩ ⟨[jane], []⟩).1.hasElementWithText
          "h2" "Welcome, Jane Doe" = true) ∧
        ((WelcomeUser blindLibrary ⟨(), [jane]⟩ ⟨[jane], []⟩).1.hasElementWithText
          "p" "Email: jane@example.com" = true) ∧
        ((WelcomeUser blindLibrary ⟨(), [jane]⟩ ⟨[jane], []⟩).1.hasSignIn = false)) := by
  decide

/-- C1, amended: for every cached account list whose first account `a` has
display name `n` and username `u`, if the library's lookup of `a` returns `a`,
then `WelcomeUser` renders a heading with text "Welcome, n" and a paragraph
with text "Email: u", and the output has no sign-in button (no interactive
control at all). -/
theorem C1_welcomeUser_greets_first_account (msal : MsalLibrary κ σ ε ρ)
    (ctx : IMsalContext κ) (w : World κ σ) (a : Account) (n u : String)
    (hfirst : ctx.accounts.head? = some a) (hn : a.name = n) (hu : a.username = u)
    (hlookup : msal.useAccount (some a) w.lib = some a) :
    (WelcomeUser msal ctx w).1.hasElementWithText "h2" ("Welcome, " ++ n) = true ∧
    (WelcomeUser msal ctx w).1.hasElementWithText "p" ("Email: " ++ u) = true ∧
    (WelcomeUser msal ctx w).1.hasSignIn = false ∧
    (WelcomeUser msal ctx w).1.controls = [] := by
  subst hn hu
  rw [WelcomeUser_fst, hfirst, hlookup]
  simp [Node.hasElementWithText, Node.hasSignIn, Node.controls, Node.elements,
    Node.elementsList, Node.isElementWithText, Node.isSignInButton, Node.isInteractive,
    Node.tag?, Node.onClick?, Node.textContent, Node.textContentList]

/-- C1, amended, at the specification's example: Jane Doe, found by the lookup. -/
theorem C1_welcomeUser_greets_jane :
    (WelcomeUser echoLibrary ⟨(), [jane, bob]⟩ ⟨[jane, bob], []⟩).1.hasElementWithText
        "h2" ("Welcome, " ++ "Jane Doe") = true ∧
    (WelcomeUser echoLibrary ⟨(), [jane, bob]⟩ ⟨[jane, bob], []⟩).1.hasElementWithText
        "p" ("Email: " ++ "jane@example.com") = true ∧
    (WelcomeUser echoLibrary ⟨(), [jane, bob]⟩ ⟨[jane, bob], []⟩).1.hasSignIn = false ∧
    (WelcomeUser echoLibrary ⟨(), [jane, bob]⟩ ⟨[jane, bob], []⟩).1.controls = [] :=
  C1_welcomeUser_greets_first_account echoLibrary ⟨(), [jane, bob]⟩ ⟨[jane, bob], []⟩ jane
    "Jane Doe" "jane@example.com" rfl rfl rfl rfl

/-- C2: when no cached account exists (the cached account list is empty, and
the library hands out only cached accounts), `WelcomeUser` rendered below the
provider gives exactly one interactive control, a button labelled "Sign In",
and no greeting text (no "Welcome, ..." heading and no "Email: ..."
paragraph). -/
theorem C2_welcomeUser_signed_out (msal : MsalLibrary κ σ ε ρ) (inst : κ) (w : World κ σ)
    (hcache : msal.lookupFromCache w.lib)
    (hempty : msal.accounts w.lib = []) :
    (MsalProvider msal inst (WelcomeUser msal) w).1.controls.map
        (fun c => (c.tag?, c.textContent)) = [(some "button", "Sign In")] ∧
    (MsalProvider msal inst (WelcomeUser msal) w).1.hasGreetingText = false := by
  have hlookup : msal.useAccount none w.lib = none := by
    cases h : msal.useAccount none w.lib with
    | none => rfl
    | some a =>
      have hmem := hcache none a h
      rw [hempty] at hmem
      cases hmem
  simp only [MsalProvider]
  rw [WelcomeUser_fst]
  simp only [hempty, List.head?_nil, hlookup]
  simp [Node.hasGreetingText, Node.controls, Node.elements,
    Node.elementsList, Node.isWelcomeHeading, Node.isEmailParagraph, Node.isInteractive,
    Node.tag?, Node.onClick?, Node.textContent, Node.textContentList]

/-- C2 at a library that looks accounts up in its cache, with the cache empty. -/
theorem C2_welcomeUser_signed_out_example :
    (MsalProvider cacheLibrary () (WelcomeUser cacheLibrary) ⟨[], []⟩).1.controls.map
        (fun c => (c.tag?, c.textContent)) = [(some "button", "Sign In")] ∧
    (MsalProvider cacheLibrary () (WelcomeUser cacheLibrary) ⟨[], []⟩).1.hasGreetingText
      = false :=
  C2_welcomeUser_signed_out cacheLibrary () ⟨[], []⟩
    (fun arg a h => by cases arg <;> simp [cacheLibrary] at h)
    rfl

/-- C3: activating the sign-in control that `SignInButton` renders is one run
of `handleLogin`; it adds exactly one call to the log, a `loginRedirect` on the
context's instance with the request whose scope list is `["User.Read"]`, and
the library state afterwards is the one that single call leaves. -/
theorem C3_signIn_click_one_loginRedirect (msal : MsalLibrary κ σ ε ρ)
    (ctx : IMsalContext κ) (w0 w : World κ σ) :
    (SignInButton ctx w0).1.isSignInButton = true ∧
    (SignInButton ctx w0).1.click msal w = handleLogin msal ctx.inst w ∧
    (handleLogin msal ctx.inst w).2.calls =
      w.calls ++ [.loginRedirect ctx.inst { scopes := ["User.Read"] }] ∧
    (handleLogin msal ctx.inst w).2.lib =
      (msal.loginRedirect ctx.inst { scopes := ["User.Read"] } w.lib).2 := by
  refine ⟨rfl, rfl, ?_, ?_⟩ <;>
    · simp only [handleLogin, loginRedirect]
      cases (msal.loginRedirect ctx.inst { scopes := ["User.Read"] } w.lib).1 <;> rfl

/-- C5, as stated, fails: the cached account lists `[jane, bob]` and
`[jane, carol]` are non-empty and have the same first account, but with a
library whose lookup returns the account cached last, `WelcomeUser` greets Bob
for the one and Carol for the other. -/
theorem C5_lookup_last_counterexample :
    (lastLibrary.accounts [jane, bob]).head? = some jane ∧
    (lastLibrary.accounts [jane, carol]).head? = some jane ∧
    (MsalProvider lastLibrary () (WelcomeUser lastLibrary) ⟨[jane, bob], []⟩).1 ≠
      (MsalProvider lastLibrary () (WelcomeUser lastLibrary) ⟨[jane, carol], []⟩).1 := by
  refine ⟨rfl, rfl, fun h => ?_⟩
  exact absurd (congrArg Node.textContent h) (by decide)

/-- C5, amended: for two non-empty cached account lists with the same first
account `a`, whatever the other accounts and the library states are, if the
library's lookup of `a` returns the same result for both, then `WelcomeUser`
renders the same tree for both. -/
theorem C5_welcomeUser_same_first_same_lookup (msal : MsalLibrary κ σ ε ρ) (inst : κ)
    (w1 w2 : World κ σ) (a : Account) (others1 others2 : List Account)
    (hlookup : msal.useAccount (some a) w1.lib = msal.useAccount (some a) w2.lib) :
    (WelcomeUser msal { inst := inst, accounts := a :: others1 } w1).1 =
      (WelcomeUser msal { inst := inst, accounts := a :: others2 } w2).1 := by
  rw [WelcomeUser_fst, WelcomeUser_fst]
  simp only [List.head?_cons, hlookup]

/-- C5, amended, at the lists `[jane, bob]` and `[jane, carol]` with a library
that finds a cached account it is given: the same tree for both. -/
theorem C5_welcomeUser_same_first_example :
    (MsalProvider cacheLibrary () (WelcomeUser cacheLibrary) ⟨[jane, bob], []⟩).1 =
      (MsalProvider cacheLibrary () (WelcomeUser cacheLibrary) ⟨[jane, carol], []⟩).1 :=
  C5_welcomeUser_same_first_same_lookup cacheLibrary () ⟨[jane, bob], []⟩ ⟨[jane, carol], []⟩
    jane [bob] [carol] (by decide)

/-- C6: rendering `WelcomeUser` leaves the library state as it was and adds
only hook calls to the log, none of them a `loginRedirect`; and in the rendered
tree every element other than the sign-in button does nothing when activated,
so a `loginRedirect` can only come from activating the sign-in control. -/
theorem C6_welcomeUser_render_has_no_effect (msal : MsalLibrary κ σ ε ρ)
    (ctx : IMsalContext κ) (w : World κ σ) :
    (WelcomeUser msal ctx w).2.lib = w.lib ∧
    (∃ hooks : List (LibCall κ),
      (WelcomeUser msal ctx w).2.calls = w.calls ++ hooks ∧
      hooks.any LibCall.isLoginRedirect = false) ∧
    (∀ (n : Node κ) (w1 : World κ σ), n ∈ (WelcomeUser msal ctx w).1.elements →
      n.isSignInButton = false → n.click msal w1 = (.ok (), w1)) := by
  refine ⟨?_, ?_, ?_⟩
  · rw [WelcomeUser_snd]
  · rw [WelcomeUser_snd]
    cases msal.useAccount ctx.accounts.head? w.lib
    · exact ⟨_, rfl, rfl⟩
    · exact ⟨_, rfl, rfl⟩
  · intro n w1 hn hbutton
    rw [WelcomeUser_fst] at hn
    cases hlookup : msal.useAccount ctx.accounts.head? w.lib with
    | none =>
      rw [hlookup] at hn
      simp only [Node.elements, Node.elementsList, List.append_nil, List.mem_singleton] at hn
      subst hn
      simp [Node.isSignInButton, Node.isElementWithText, Node.tag?, Node.textContent,
        Node.textContentList] at hbutton
    | some a =>
      rw [hlookup] at hn
      simp only [Node.elements, Node.elementsList, List.append_nil, List.mem_cons,
        List.cons_append, List.nil_append, List.mem_singleton, List.not_mem_nil,
        or_false] at hn
      rcases hn with h | h | h <;> subst h <;> rfl

/-- C6 at a concrete rendering: the greeting for Jane Doe; its heading, when
clicked, leaves the world as it was. -/
theorem C6_welcomeUser_render_example :
    (Node.element "h2" [] none [.text "Welcome, ", .text "Jane Doe"] : Node Unit).click
      echoLibrary ⟨[jane], []⟩ = (.ok (), ⟨[jane], []⟩) :=
  (C6_welcomeUser_render_has_no_effect echoLibrary ⟨(), [jane]⟩ ⟨[jane], []⟩).2.2
    (.element "h2" [] none [.text "Welcome, ", .text "Jane Doe"]) ⟨[jane], []⟩
    (by simp [WelcomeUser_fst, echoLibrary, jane, Node.elements, Node.elementsList])
    (by decide)

/-- C7, as stated, fails: the library's `loginRedirect` fails asynchronously,
returning a promise that rejects with "login_failed"; `handleLogin` drops the
promise and returns normally, it does not fail with that failure. -/
theorem C7_rejected_promise_counterexample :
    (rejectingLibrary.loginRedirect () { scopes := ["User.Read"] } 0).1 =
      .ok (Promise.rejected "login_failed") ∧
    (handleLogin rejectingLibrary () ⟨0, []⟩).1 = .ok () ∧
    (handleLogin rejectingLibrary () ⟨0, []⟩).1 ≠ .error "login_failed" := by
  refine ⟨rfl, rfl, fun h => ?_⟩
  cases h

/-- C7, amended: `handleLogin` handles no failure locally.  When the library's
`loginRedirect` throws `e`, `handleLogin` throws the same `e`; when it returns,
whatever it returns (a promise that later rejects included) is dropped and
`handleLogin` returns `undefined`; either way the log has gained exactly the
one call (no retry). -/
theorem C7_handleLogin_throw_propagates_return_dropped (msal : MsalLibrary κ σ ε ρ)
    (inst : κ) (w : World κ σ) :
    (∀ e : ε, (msal.loginRedirect inst { scopes := ["User.Read"] } w.lib).1 = .error e →
      (handleLogin msal inst w).1 = .error e) ∧
    (∀ v : ρ, (msal.loginRedirect inst { scopes := ["User.Read"] } w.lib).1 = .ok v →
      (handleLogin msal inst w).1 = .ok ()) ∧
    (handleLogin msal inst w).2 =
      { lib := (msal.loginRedirect inst { scopes := ["User.Read"] } w.lib).2
        calls := w.calls ++ [.loginRedirect inst { scopes := ["User.Read"] }] } := by
  simp only [handleLogin, loginRedirect]
  cases h : (msal.loginRedirect inst { scopes := ["User.Read"] } w.lib).1 <;> simp

/-- C7, amended, at a library whose `loginRedirect` throws: `handleLogin`
throws the same value. -/
theorem C7_handleLogin_throw_example :
    (handleLogin failingLibrary () ⟨0, []⟩).1 = .error "interaction_in_progress" :=
  (C7_handleLogin_throw_propagates_return_dropped failingLibrary () ⟨0, []⟩).1
    "interaction_in_progress" rfl

/-- C8: `msalConfig` is the literal with the single property `auth`, whose
properties are exactly `clientId`, `authority` and `redirectUri`; the client
identifier is a string, the authority is the pattern
`https://login.microsoftonline.com/{tenant}` at tenant "common", the redirect
URL is "https://wowfactory.azurewebsites.net/loginnow"; and the client instance
is the library's constructor applied to `msalConfig`, whatever the constructor. -/
theorem C8_msalConfig_literal :
    msalConfig.keys = ["auth"] ∧
    (msalConfig.get? "auth").map JSValue.keys = some ["clientId", "authority", "redirectUri"] ∧
    (((msalConfig.get? "auth").bind (JSValue.get? · "clientId")).bind JSValue.asString?
      = some "YOUR_AZURE_AD_CLIENT_ID") ∧
    (((msalConfig.get? "auth").bind (JSValue.get? · "authority")).bind JSValue.asString?
      = some (authorityPattern "common")) ∧
    (((msalConfig.get? "auth").bind (JSValue.get? · "redirectUri")).bind JSValue.asString?
      = some "https://wowfactory.azurewebsites.net/loginnow") ∧
    (∀ (κ0 : Type) (PublicClientApplication : JSValue → κ0),
      msalInstance PublicClientApplication = PublicClientApplication msalConfig) := by
  refine ⟨rfl, rfl, rfl, ?_, rfl, fun _ _ => rfl⟩
  decide

/-- C9: `WelcomeUser` renders from the result of the library's lookup.  The
lookup is called once, with the first account of the list when there is one
and with `null` when the list is empty.  When it returns an account, the
greeting with that account's name and username is rendered and no sign-in
button; when it returns `null`, the sign-in button is rendered and no greeting,
whether or not the list is empty.  So the greeting is rendered exactly when the
lookup result is non-null, and the button exactly when it is `null`. -/
theorem C9_welcomeUser_follows_lookup (msal : MsalLibrary κ σ ε ρ)
    (ctx : IMsalContext κ) (w : World κ σ) :
    (∃ rest : List (LibCall κ),
      (WelcomeUser msal ctx w).2.calls =
        w.calls ++ LibCall.useMsal ::
          LibCall.useAccount (match ctx.accounts with
            | [] => none
            | first :: _ => some first) :: rest ∧
      ∀ arg, LibCall.useAccount arg ∉ rest) ∧
    (∀ a : Account, msal.useAccount ctx.accounts.head? w.lib = some a →
      (WelcomeUser msal ctx w).1.hasElementWithText "h2" ("Welcome, " ++ a.name) = true ∧
      (WelcomeUser msal ctx w).1.hasElementWithText "p" ("Email: " ++ a.username) = true ∧
      (WelcomeUser msal ctx w).1.hasSignIn = false) ∧
    (msal.useAccount ctx.accounts.head? w.lib = none →
      (WelcomeUser msal ctx w).1.hasSignIn = true ∧
      (WelcomeUser msal ctx w).1.hasGreetingText = false) ∧
    (WelcomeUser msal ctx w).1.hasWelcome = (msal.useAccount ctx.accounts.head? w.lib).isSome ∧
    (WelcomeUser msal ctx w).1.hasSignIn = (msal.useAccount ctx.accounts.head? w.lib).isNone := by
  have harg : (match ctx.accounts with
      | [] => none
      | first :: _ => some first) = ctx.accounts.head? := by
    cases ctx.accounts <;> rfl
  rw [WelcomeUser_fst, WelcomeUser_snd, harg]
  cases msal.useAccount ctx.accounts.head? w.lib with
  | none =>
    refine ⟨⟨[.useMsal], rfl, by simp⟩, by simp, ?_, ?_, ?_⟩ <;>
      simp [Node.hasSignIn, Node.hasWelcome, Node.hasGreetingText, Node.elements,
        Node.elementsList, Node.isElementWithText, Node.isSignInButton, Node.isWelcomeHeading,
        Node.isEmailParagraph, Node.tag?, Node.textContent, Node.textContentList]
  | some b =>
    refine ⟨⟨[], rfl, by simp⟩, ?_, by simp, ?_, ?_⟩
    · intro a ha
      cases ha
      simp [Node.hasElementWithText, Node.hasSignIn, Node.elements,
        Node.elementsList, Node.isElementWithText, Node.isSignInButton,
        Node.tag?, Node.textContent, Node.textContentList]
    · simp [Node.hasWelcome, Node.elements,
        Node.elementsList, Node.isWelcomeHeading,
        Node.isEmailParagraph, Node.tag?, Node.textContent, Node.textContentList,
        startsWith_append]
    · simp [Node.hasSignIn, Node.elements,
        Node.elementsList, Node.isElementWithText, Node.isSignInButton,
        Node.tag?, Node.textContent, Node.textContentList]

/-- C9 at a non-empty account list whose lookup returns `null`: the sign-in
button is rendered, not the greeting. -/
theorem C9_welcomeUser_nonempty_list_null_lookup :
    (WelcomeUser blindLibrary ⟨(), [jane]⟩ ⟨[jane], []⟩).1.hasSignIn = true ∧
    (WelcomeUser blindLibrary ⟨(), [jane]⟩ ⟨[jane], []⟩).1.hasGreetingText = false :=
  (C9_welcomeUser_follows_lookup blindLibrary ⟨(), [jane]⟩ ⟨[jane], []⟩).2.2.1 rfl

end Claims

end WowLab
